import Mathlib

/-!
Shallow embedding of the worktree lifecycle manager of the `wt` tool
(`tools/wt-worktree/wt/`): the configuration resolver (`config.py`), the
git gateway's worktree-listing parser (`git.py`), and the worktree
directory / sync engine (`worktree.py`).

Modelling conventions:
* Python strings are modelled as `List Char` (`PyStr`), matching Python's
  view of a string as a sequence of code points.
* Results of read-only gateway calls (subprocess invocations such as
  `git rev-parse`, `git status`) are supplied by explicit environment
  records: each field holds the value the corresponding gateway function
  returned during the modelled run.
* Mutating gateway calls (`git stash push/pop`, `git pull`, `git rebase`,
  `git worktree add/remove/prune`, `git branch -d`, `git config`) are
  recorded as events in an output trace, so that "performs no mutation"
  claims are statable as the trace being empty.
* Python exceptions (`git.GitError`) and `sys.exit` are modelled as
  explicit outcome constructors.
-/

/-- Python string, as a sequence of code points. -/
abbrev PyStr := List Char

/-- Conversion from a Lean string literal to the `PyStr` model. -/
def str (s : String) : PyStr := s.toList

/-- Python `str.split(sep)` for a one-character separator: splits on every
occurrence, always returning at least one (possibly empty) part. -/
def splitOnChar (c : Char) : PyStr → List PyStr
  | [] => [[]]
  | x :: xs =>
    let r := splitOnChar c xs
    if x = c then [] :: r
    else
      match r with
      | [] => [[x]]
      | y :: ys => (x :: y) :: ys

/-- Everything after the first occurrence of `c` (empty if `c` absent).
Equals Python's `line.split(c, 1)[1]` whenever `c` occurs in `line`. -/
def afterChar (c : Char) : PyStr → PyStr
  | [] => []
  | x :: xs => if x = c then xs else afterChar c xs

/-- Python `str.strip()`: remove leading and trailing whitespace. -/
def pyStrip (s : PyStr) : PyStr :=
  ((s.dropWhile Char.isWhitespace).reverse.dropWhile Char.isWhitespace).reverse

/-- Fuel-driven worker for `replaceAll`; the fuel is the length of the
remaining input, which bounds the number of steps. -/
def replaceAllFuel (pat rep : PyStr) : Nat → PyStr → PyStr
  | 0, s => s
  | _ + 1, [] => []
  | fuel + 1, c :: rest =>
    if pat ≠ [] ∧ pat.isPrefixOf (c :: rest) then
      rep ++ replaceAllFuel pat rep fuel ((c :: rest).drop pat.length)
    else
      c :: replaceAllFuel pat rep fuel rest

/-- Python `s.replace(pat, rep)`: replace every (left-to-right,
non-overlapping) occurrence of `pat` in `s` by `rep`. -/
def replaceAll (s pat rep : PyStr) : PyStr :=
  replaceAllFuel pat rep s.length s

/-- Decimal rendering of a natural number, as used by Python f-string
interpolation of the ahead/behind counts. -/
def natStr (n : Nat) : PyStr := (toString n).toList

/-- Embedding of `Config.get_branch_name` (config.py lines 196-209):
`f"{prefix}/{name}"` when the configured prefix is truthy (non-empty),
else `name` unchanged. An unset/None prefix behaves like the empty
string (both are falsy in Python), so the model uses `PyStr` alone. -/
def get_branch_name (pfx : PyStr) (name : PyStr) : PyStr :=
  if pfx ≠ [] then pfx ++ '/' :: name else name

/-- Embedding of `Config.extract_worktree_name` (config.py lines 211-224):
strips `f"{prefix}/"` when the prefix is truthy and `branch` starts with
it (`branch[len(prefix)+1:]`), else returns `branch` unchanged. -/
def extract_worktree_name (pfx : PyStr) (branch : PyStr) : PyStr :=
  if pfx ≠ [] ∧ (pfx ++ ['/']).isPrefixOf branch then branch.drop (pfx.length + 1)
  else branch

/-- Helper: a list is always a Boolean prefix of itself followed by
anything. -/
theorem isPrefixOf_append_self (a b : List Char) : a.isPrefixOf (a ++ b) = true := by
  induction a with
  | nil => simp [List.isPrefixOf]
  | cons x xs ih => simp [List.isPrefixOf, ih]

/-- Helper: dropping `p.length + 1` characters from `p ++ '/' :: n`
leaves `n`. -/
theorem drop_pfx_slash (p n : List Char) : (p ++ '/' :: n).drop (p.length + 1) = n := by
  have h : p ++ '/' :: n = (p ++ ['/']) ++ n := by simp
  have h2 : (p ++ ['/']).length = p.length + 1 := by simp
  calc (p ++ '/' :: n).drop (p.length + 1)
      = ((p ++ ['/']) ++ n).drop ((p ++ ['/']).length) := by rw [h, h2]
    _ = n := List.drop_left _ _

/-- Enriched worktree record, as produced by
`WorktreeManager.list_worktrees` (worktree.py lines 54-87): the raw
gateway record plus the derived display `name`. The enrichment itself is
a best-effort lookup through gateway oracles, so manager operations are
modelled over the enriched list their `self.list_worktrees()` call
returned. -/
structure Worktree where
  path : PyStr
  branch : Option PyStr
  commit : PyStr
  name : PyStr
deriving DecidableEq, Repr

/-- Embedding of `WorktreeManager.find_worktree_by_name` (worktree.py
lines 112-140): three sequential scans of the listed worktrees — first
by derived name, then by raw branch, then by the prefix-qualified branch
`get_branch_name name`; each Python for-loop with an early `return` is a
`List.find?`. -/
def find_worktree_by_name (wts : List Worktree) (pfx : PyStr) (name : PyStr) :
    Option Worktree :=
  match wts.find? (fun wt => wt.name == name) with
  | some wt => some wt
  | none =>
    match wts.find? (fun wt => wt.branch == some name) with
    | some wt => some wt
    | none =>
      match wts.find? (fun wt => wt.branch == some (get_branch_name pfx name)) with
      | some wt => some wt
      | none => none

/-- Helper: a successful `find?` returns a member satisfying the
predicate. -/
theorem find?_some_spec {α : Type} (p : α → Bool) (l : List α) (a : α)
    (h : l.find? p = some a) : a ∈ l ∧ p a = true :=
  ⟨List.mem_of_find?_eq_some h, List.find?_some h⟩

/-- Helper: `find?` is `none` exactly when no member satisfies the
predicate. -/
theorem find?_none_iff {α : Type} (p : α → Bool) (l : List α) :
    l.find? p = none ↔ ∀ a ∈ l, p a = false := by
  simp [List.find?_eq_none]

/-- Helper: if some member satisfies the predicate, `find?` succeeds. -/
theorem find?_isSome_of_mem {α : Type} (p : α → Bool) (l : List α) (x : α)
    (hm : x ∈ l) (hp : p x = true) : ∃ a, l.find? p = some a :=
  Option.isSome_iff_exists.mp (List.find?_isSome.mpr ⟨x, hm, hp⟩)

/-- C3: with prefix `"feature"`, `get_branch_name "foo" = "feature/foo"`
and `extract_worktree_name "feature/foo" = "foo"`; with the empty prefix
both functions are the identity on every input; and for every prefix and
every name, `extract_worktree_name (get_branch_name name) = name`. -/
theorem branch_name_roundtrip :
    get_branch_name (str "feature") (str "foo") = str "feature/foo"
    ∧ extract_worktree_name (str "feature") (str "feature/foo") = str "foo"
    ∧ (∀ s : PyStr, get_branch_name [] s = s)
    ∧ (∀ s : PyStr, extract_worktree_name [] s = s)
    ∧ (∀ pfx name : PyStr, extract_worktree_name pfx (get_branch_name pfx name) = name) := by
  refine ⟨by decide, by decide, ?_, ?_, ?_⟩
  · intro s; simp [get_branch_name]
  · intro s; simp [extract_worktree_name]
  · intro pfx name
    by_cases hp : pfx = []
    · subst hp; simp [get_branch_name, extract_worktree_name]
    · have hpre : (pfx ++ ['/']).isPrefixOf (pfx ++ '/' :: name) = true := by
        have h : pfx ++ '/' :: name = (pfx ++ ['/']) ++ name := by simp
        rw [h]; exact isPrefixOf_append_self _ _
      simp only [get_branch_name, if_pos hp]
      rw [extract_worktree_name, if_pos ⟨hp, hpre⟩]
      exact drop_pfx_slash pfx name

/-- C7: `find_worktree_by_name` resolves in order — derived name first,
then raw branch, then the prefix-qualified branch `get_branch_name name`;
a worktree matching an earlier rule is always preferred over one matching
only a later rule, and `none` is returned exactly when no rule matches. -/
theorem find_worktree_resolution_order (wts : List Worktree) (pfx name : PyStr) :
    ((∃ w ∈ wts, w.name = name) →
      ∃ w, find_worktree_by_name wts pfx name = some w ∧ w ∈ wts ∧ w.name = name)
    ∧ ((∀ w ∈ wts, w.name ≠ name) → (∃ w ∈ wts, w.branch = some name) →
      ∃ w, find_worktree_by_name wts pfx name = some w ∧ w ∈ wts ∧ w.branch = some name)
    ∧ ((∀ w ∈ wts, w.name ≠ name) → (∀ w ∈ wts, w.branch ≠ some name) →
      (∃ w ∈ wts, w.branch = some (get_branch_name pfx name)) →
      ∃ w, find_worktree_by_name wts pfx name = some w ∧ w ∈ wts ∧
        w.branch = some (get_branch_name pfx name))
    ∧ (find_worktree_by_name wts pfx name = none ↔
      ∀ w ∈ wts, w.name ≠ name ∧ w.branch ≠ some name ∧
        w.branch ≠ some (get_branch_name pfx name)) := by
  refine ⟨?_, ?_, ?_, ?_, ?_⟩
  · rintro ⟨w, hw, hn⟩
    obtain ⟨a, ha⟩ := find?_isSome_of_mem (fun wt => wt.name == name) wts w hw (by simp [hn])
    obtain ⟨ham, hap⟩ := find?_some_spec _ _ _ ha
    refine ⟨a, ?_, ham, by simpa using hap⟩
    rw [find_worktree_by_name, ha]
  · rintro h1 ⟨w, hw, hb⟩
    have e1 : wts.find? (fun wt => wt.name == name) = none :=
      (find?_none_iff _ _).mpr (fun a ha => by simpa using h1 a ha)
    obtain ⟨a, ha⟩ :=
      find?_isSome_of_mem (fun wt => wt.branch == some name) wts w hw (by simp [hb])
    obtain ⟨ham, hap⟩ := find?_some_spec _ _ _ ha
    refine ⟨a, ?_, ham, by simpa using hap⟩
    rw [find_worktree_by_name, e1, ha]
  · rintro h1 h2 ⟨w, hw, hb⟩
    have e1 : wts.find? (fun wt => wt.name == name) = none :=
      (find?_none_iff _ _).mpr (fun a ha => by simpa using h1 a ha)
    have e2 : wts.find? (fun wt => wt.branch == some name) = none :=
      (find?_none_iff _ _).mpr (fun a ha => by simpa using h2 a ha)
    obtain ⟨a, ha⟩ :=
      find?_isSome_of_mem (fun wt => wt.branch == some (get_branch_name pfx name))
        wts w hw (by simp [hb])
    obtain ⟨ham, hap⟩ := find?_some_spec _ _ _ ha
    refine ⟨a, ?_, ham, by simpa using hap⟩
    rw [find_worktree_by_name, e1, e2, ha]
  · intro h w hw
    cases e1 : wts.find? (fun wt => wt.name == name) with
    | some a => rw [find_worktree_by_name, e1] at h; exact absurd h (by simp)
    | none =>
    cases e2 : wts.find? (fun wt => wt.branch == some name) with
    | some a => rw [find_worktree_by_name, e1, e2] at h; exact absurd h (by simp)
    | none =>
    cases e3 : wts.find? (fun wt => wt.branch == some (get_branch_name pfx name)) with
    | some a => rw [find_worktree_by_name, e1, e2, e3] at h; exact absurd h (by simp)
    | none =>
      refine ⟨?_, ?_, ?_⟩
      · simpa using (find?_none_iff _ _).mp e1 w hw
      · simpa using (find?_none_iff _ _).mp e2 w hw
      · simpa using (find?_none_iff _ _).mp e3 w hw
  · intro h
    have e1 : wts.find? (fun wt => wt.name == name) = none :=
      (find?_none_iff _ _).mpr (fun a ha => by simpa using (h a ha).1)
    have e2 : wts.find? (fun wt => wt.branch == some name) = none :=
      (find?_none_iff _ _).mpr (fun a ha => by simpa using (h a ha).2.1)
    have e3 : wts.find? (fun wt => wt.branch == some (get_branch_name pfx name)) = none :=
      (find?_none_iff _ _).mpr (fun a ha => by simpa using (h a ha).2.2)
    rw [find_worktree_by_name, e1, e2, e3]

/-- Witness for C7: in a list where the first worktree matches only by
raw branch and the second matches by derived name, the name match is
preferred. -/
theorem find_worktree_resolution_order_witness :
    (∃ w ∈ [Worktree.mk (str "/a") (some (str "x")) (str "c1") (str "a"),
             Worktree.mk (str "/b") (some (str "zzz")) (str "c2") (str "x")],
       w.name = str "x")
    ∧ ∃ w, find_worktree_by_name
        [Worktree.mk (str "/a") (some (str "x")) (str "c1") (str "a"),
         Worktree.mk (str "/b") (some (str "zzz")) (str "c2") (str "x")]
        [] (str "x") = some w
      ∧ w ∈ [Worktree.mk (str "/a") (some (str "x")) (str "c1") (str "a"),
             Worktree.mk (str "/b") (some (str "zzz")) (str "c2") (str "x")]
      ∧ w.name = str "x" :=
  ⟨by decide,
   (find_worktree_resolution_order _ [] (str "x")).1 (by decide)⟩

/-- Per-run environment for `WorktreeManager.sync_worktree`: the value
each gateway call returns during the modelled run. `aheadUpstream` and
`aheadBase` are the (swallowed-on-error) `get_ahead_behind` ahead
counts, `none` meaning the lookup raised `GitError`. -/
structure SyncEnv where
  upstream : Option PyStr
  hasUncommitted : Bool
  stashOk : Bool
  pullOk : Bool
  pullMsg : PyStr
  aheadUpstream : Option Nat
  rebaseOk : Bool
  rebaseMsg : PyStr
  aheadBase : Option Nat
  popOk : Bool
deriving Repr

/-- Per-worktree sync result dict (worktree.py lines 464-469):
`{success, stashed, message, error}`. -/
structure SyncResult where
  success : Bool
  stashed : Bool
  message : PyStr
  error : Option PyStr
deriving DecidableEq, Repr

/-- Mutating gateway calls made during a sync run, in order. -/
inductive GitEvent where
  | stashPush
  | pull (remote : PyStr) (remoteBranch : PyStr)
  | rebase (branch : PyStr) (base : PyStr)
  | stashPop
deriving DecidableEq, Repr

/-- Embedding of the `try:` block of `sync_worktree` (worktree.py lines
500-546): pull from upstream, then optionally rebase onto the configured
default base (falling back to `"origin/main"` when that config value is
falsy), building up the result message. -/
def syncTry (branch : PyStr) (env : SyncEnv) (default_base : Option PyStr)
    (rebase stashed : Bool) (remote remote_branch : PyStr) (evs0 : List GitEvent) :
    SyncResult × List GitEvent :=
  let evs1 := evs0 ++ [GitEvent.pull remote remote_branch]
  if ¬ env.pullOk then
    (⟨false, stashed, [], some (str "pull " ++ env.pullMsg)⟩, evs1)
  else
    let msg1 :=
      if env.pullMsg = str "already_up_to_date" then str "✓ Already up to date"
      else if env.pullMsg = str "fast_forward" then
        match env.aheadUpstream with
        | some n => str "✓ Fast-forward: " ++ natStr n ++ str " commits"
        | none => str "✓ Fast-forward"
      else str "✓ Merged: 1 commit"
    if rebase then
      let db :=
        match default_base with
        | some s => if s = [] then str "origin/main" else s
        | none => str "origin/main"
      let evs2 := evs1 ++ [GitEvent.rebase branch db]
      if ¬ env.rebaseOk then
        (⟨false, stashed, msg1, some (str "rebase " ++ env.rebaseMsg)⟩, evs2)
      else
        let msg2 := msg1 ++
          (if env.rebaseMsg = str "up_to_date" then str "\n✓ Already based on " ++ db
           else
             match env.aheadBase with
             | some n => str "\n✓ Rebased, " ++ natStr n ++ str " commits ahead"
             | none => str "\n✓ Rebased")
        (⟨true, stashed, msg2, none⟩, evs2)
    else (⟨true, stashed, msg1, none⟩, evs1)

/-- Embedding of the `finally:` block of `sync_worktree` (worktree.py
lines 548-561): whenever step 2 stashed, pop the stash; a failed pop
downgrades an otherwise-successful result to
`success=False, error="stash conflict"` and otherwise leaves the
already-failed result's error untouched. -/
def syncFinally (env : SyncEnv) (p : SyncResult × List GitEvent) :
    SyncResult × List GitEvent :=
  let r := p.1
  if r.stashed then
    let evs' := p.2 ++ [GitEvent.stashPop]
    if env.popOk then ({r with message := r.message ++ str "\n✓ Stash applied"}, evs')
    else if r.success then ({r with success := false, error := some (str "stash conflict")}, evs')
    else (r, evs')
  else (r, p.2)

/-- Embedding of `WorktreeManager.sync_worktree` (worktree.py lines
449-562): detached / missing-upstream / malformed-upstream detection,
conditional stash, then the try/finally pull-rebase-pop sequence. Early
returns before the `try:` block bypass the `finally:` restore step,
exactly as in the source. -/
def sync_worktree (wt : Worktree) (env : SyncEnv) (default_base : Option PyStr)
    (rebase : Bool) : SyncResult × List GitEvent :=
  match wt.branch with
  | none => (⟨false, false, [], some (str "detached HEAD, skipping")⟩, [])
  | some branch =>
    match env.upstream with
    | none => (⟨false, false, [], some (str "no upstream branch")⟩, [])
    | some upstream =>
      if (splitOnChar '/' upstream).length < 2 then
        (⟨false, false, [], some (str "invalid upstream: " ++ upstream)⟩, [])
      else
        let remote := (splitOnChar '/' upstream).headD []
        let remote_branch := afterChar '/' upstream
        if env.hasUncommitted then
          if env.stashOk then
            syncFinally env
              (syncTry branch env default_base rebase true remote remote_branch
                [GitEvent.stashPush])
          else (⟨false, false, [], some (str "failed to stash changes")⟩, [GitEvent.stashPush])
        else
          syncFinally env
            (syncTry branch env default_base rebase false remote remote_branch [])

/-- Effect of one recorded gateway event on the worktree's stash-entry
count, following git's documented stash semantics: a successful
`stash push` adds an entry, a successful `stash pop` removes one, and a
failed pop (conflict) leaves the entry in place; pull and rebase do not
touch the stash. -/
def stashDelta (env : SyncEnv) : GitEvent → Nat → Nat
  | GitEvent.stashPush, n => if env.stashOk then n + 1 else n
  | GitEvent.stashPop, n => if env.popOk then n - 1 else n
  | GitEvent.pull _ _, n => n
  | GitEvent.rebase _ _, n => n

/-- Stash-entry count after a trace of gateway events, starting from
`n` entries. -/
def stashCountAfter (env : SyncEnv) (evs : List GitEvent) (n : Nat) : Nat :=
  evs.foldl (fun m e => stashDelta env e m) n

/-- C1: syncing a worktree with a bound branch but no configured
upstream returns `success=false, stashed=false, error="no upstream
branch"` with an empty message, and performs no gateway mutation at all
(no stash, pull, rebase, or pop). -/
theorem sync_no_upstream (wt : Worktree) (env : SyncEnv) (default_base : Option PyStr)
    (rebase : Bool) (b : PyStr) (hb : wt.branch = some b) (hu : env.upstream = none) :
    sync_worktree wt env default_base rebase =
      (⟨false, false, [], some (str "no upstream branch")⟩, []) := by
  simp [sync_worktree, hb, hu]

/-- Witness for C1: a concrete bound-branch worktree whose branch has no
upstream. -/
theorem sync_no_upstream_witness :
    (Worktree.mk (str "/r-foo") (some (str "feature/foo")) (str "c1") (str "foo")).branch
        = some (str "feature/foo")
    ∧ (SyncEnv.mk none true true true [] none true [] none true).upstream = none
    ∧ sync_worktree
        (Worktree.mk (str "/r-foo") (some (str "feature/foo")) (str "c1") (str "foo"))
        (SyncEnv.mk none true true true [] none true [] none true)
        (some (str "origin/main")) true =
      (⟨false, false, [], some (str "no upstream branch")⟩, []) :=
  ⟨rfl, rfl,
   sync_no_upstream _ _ (some (str "origin/main")) true (str "feature/foo") rfl rfl⟩

/-- C2: when sync stashed and the pull (and rebase, if requested)
succeeded but the final pop fails, the result is downgraded to
`success=false, error="stash conflict"` and the stash entry is left
intact (one entry remains, nothing drops it); when the pull or the
rebase had already failed, the original failure's error is kept, the pop
is still attempted, and the stash entry likewise remains. -/
theorem sync_stash_conflict (wt : Worktree) (env : SyncEnv) (default_base : Option PyStr)
    (rebase : Bool) (b u : PyStr)
    (hb : wt.branch = some b) (hu : env.upstream = some u)
    (hslash : ¬ (splitOnChar '/' u).length < 2)
    (hunc : env.hasUncommitted = true) (hst : env.stashOk = true)
    (hpop : env.popOk = false) :
    ((env.pullOk = true → (rebase = true → env.rebaseOk = true) →
       (sync_worktree wt env default_base rebase).1.success = false
       ∧ (sync_worktree wt env default_base rebase).1.error = some (str "stash conflict")
       ∧ stashCountAfter env (sync_worktree wt env default_base rebase).2 0 = 1)
     ∧ (env.pullOk = false →
       (sync_worktree wt env default_base rebase).1.success = false
       ∧ (sync_worktree wt env default_base rebase).1.error = some (str "pull " ++ env.pullMsg)
       ∧ GitEvent.stashPop ∈ (sync_worktree wt env default_base rebase).2
       ∧ stashCountAfter env (sync_worktree wt env default_base rebase).2 0 = 1)
     ∧ (env.pullOk = true → rebase = true → env.rebaseOk = false →
       (sync_worktree wt env default_base rebase).1.success = false
       ∧ (sync_worktree wt env default_base rebase).1.error = some (str "rebase " ++ env.rebaseMsg)
       ∧ GitEvent.stashPop ∈ (sync_worktree wt env default_base rebase).2
       ∧ stashCountAfter env (sync_worktree wt env default_base rebase).2 0 = 1)) := by
  refine ⟨?_, ?_, ?_⟩
  · intro hpull hreb
    cases hr : rebase with
    | false =>
      simp [sync_worktree, hb, hu, hslash, hunc, hst, hpull, hpop, syncTry, syncFinally,
        stashCountAfter, stashDelta]
    | true =>
      have hro : env.rebaseOk = true := hreb (by rw [hr])
      simp [sync_worktree, hb, hu, hslash, hunc, hst, hpull, hro, hpop, syncTry, syncFinally,
        stashCountAfter, stashDelta]
  · intro hpull
    simp [sync_worktree, hb, hu, hslash, hunc, hst, hpull, hpop, syncTry, syncFinally,
      stashCountAfter, stashDelta]
  · intro hpull hr hro
    simp [sync_worktree, hb, hu, hslash, hunc, hst, hpull, hr, hro, hpop, syncTry, syncFinally,
      stashCountAfter, stashDelta]

/-- Concrete worktree used by the C2 witness. -/
def c2wt : Worktree :=
  Worktree.mk (str "/r-foo") (some (str "feature/foo")) (str "c1") (str "foo")

/-- Concrete sync environment used by the C2 witness: uncommitted
changes present, stash and pull succeed, the final pop fails. -/
def c2env : SyncEnv :=
  SyncEnv.mk (some (str "origin/feature/foo")) true true true
    (str "already_up_to_date") none true [] none false

/-- Witness for C2: run on the concrete conflict scenario, the sync
result is downgraded to a stash-conflict failure with the stash entry
preserved. -/
theorem sync_stash_conflict_witness :
    c2wt.branch = some (str "feature/foo")
    ∧ c2env.upstream = some (str "origin/feature/foo")
    ∧ (¬ (splitOnChar '/' (str "origin/feature/foo")).length < 2)
    ∧ c2env.hasUncommitted = true ∧ c2env.stashOk = true ∧ c2env.popOk = false
    ∧ ((sync_worktree c2wt c2env (some (str "origin/main")) false).1.success = false
       ∧ (sync_worktree c2wt c2env (some (str "origin/main")) false).1.error
           = some (str "stash conflict")
       ∧ stashCountAfter c2env (sync_worktree c2wt c2env (some (str "origin/main")) false).2 0
           = 1) :=
  ⟨rfl, rfl, by decide, rfl, rfl, rfl,
   (sync_stash_conflict c2wt c2env (some (str "origin/main")) false
      (str "feature/foo") (str "origin/feature/foo") rfl rfl (by decide) rfl rfl rfl).1
     rfl (by decide)⟩

/-- Record built by the worktree-listing parser (git.py lines 187-222).
The Python code builds a dict incrementally; the `branch` field uses two
option layers to distinguish a missing key (`none`) from a key set to
Python `None` by a `detached` line (`some none`). -/
structure RawRecord where
  path : Option PyStr := none
  commit : Option PyStr := none
  branch : Option (Option PyStr) := none
  locked : Bool := false
deriving DecidableEq, Repr

/-- Python truthiness of the record dict: truthy as soon as any key has
been set. -/
def RawRecord.isEmpty (r : RawRecord) : Bool :=
  r.path.isNone && r.commit.isNone && r.branch.isNone && !r.locked

/-- Dispatch of one non-blank porcelain line (git.py lines 206-217): the
`startswith` chain for `worktree `, `HEAD `, `branch `, `detached`,
`locked`. The branch value is `line.split(" ", 1)[1]` with every
occurrence of `"refs/heads/"` removed by `str.replace`. -/
def applyLine (line : PyStr) (cur : RawRecord) : RawRecord :=
  if (str "worktree ").isPrefixOf line then { cur with path := some (afterChar ' ' line) }
  else if (str "HEAD ").isPrefixOf line then { cur with commit := some (afterChar ' ' line) }
  else if (str "branch ").isPrefixOf line then
    { cur with branch := some (some (replaceAll (afterChar ' ' line) (str "refs/heads/") [])) }
  else if (str "detached").isPrefixOf line then { cur with branch := some none }
  else if (str "locked").isPrefixOf line then { cur with locked := true }
  else cur

/-- Line loop of the parser (git.py lines 199-221): a blank line flushes
a non-empty record; the record still open at the end of input is flushed
unconditionally. -/
def parseGo : List PyStr → RawRecord → List RawRecord
  | [], cur => if cur.isEmpty then [] else [cur]
  | line :: rest, cur =>
    if line = [] then
      if cur.isEmpty then parseGo rest cur
      else cur :: parseGo rest {}
    else parseGo rest (applyLine line cur)

/-- Embedding of `git.list_worktrees`'s parsing of the
`git worktree list --porcelain` stdout (git.py lines 187-222):
`result.stdout.strip().split('\n')` followed by the line loop. -/
def list_worktrees_parse (stdout : PyStr) : List RawRecord :=
  parseGo (splitOnChar '\n' (pyStrip stdout)) {}

/-- C8 (code evaluated at the failing input): on a porcelain listing
whose last record has no trailing blank line, the parser does flush the
final record, and a `detached` record gets branch strictly `None`
(`some none`, never the empty string); but for the branch ref
`refs/heads/refs/heads/x` — a legal git branch named `refs/heads/x` —
`str.replace` removes BOTH occurrences of `"refs/heads/"`, producing
branch `"x"` instead of the claimed leading-prefix-only strip
`"refs/heads/x"`. -/
theorem list_worktrees_parse_replace_all_bug :
    list_worktrees_parse
      (str "worktree /repo\nHEAD 1234567\nbranch refs/heads/main\n\nworktree /repo-d\nHEAD 89abcde\ndetached\n\nworktree /repo-x\nHEAD 2222222\nbranch refs/heads/refs/heads/x")
      = [⟨some (str "/repo"), some (str "1234567"), some (some (str "main")), false⟩,
         ⟨some (str "/repo-d"), some (str "89abcde"), some none, false⟩,
         ⟨some (str "/repo-x"), some (str "2222222"), some (some (str "x")), false⟩]
    ∧ some (str "x") ≠ some (str "refs/heads/x") := by
  constructor
  · decide
  · decide

/-- Raw worktree binding tracked in the modelled repository state: a
checked-out directory and the branch bound to it (`none` = detached). -/
structure RepoWorktree where
  path : PyStr
  branch : Option PyStr
deriving DecidableEq, Repr

/-- Modelled repository/filesystem state consulted and mutated by
`create_worktree`: local branches, registered worktrees, and paths that
exist on disk. -/
structure FSState where
  branches : List PyStr
  worktrees : List RepoWorktree
  pathsOnDisk : List PyStr
deriving DecidableEq, Repr

/-- Embedding of `git.branch_exists` (git.py lines 122-126) over the
modelled state. -/
def branch_exists (s : FSState) (branch : PyStr) : Bool :=
  s.branches.contains branch

/-- Embedding of `git.worktree_exists` (git.py lines 225-236): the first
listed worktree whose branch equals the given name, if any. -/
def worktree_exists (s : FSState) (branch : PyStr) : Option PyStr :=
  (s.worktrees.find? (fun w => w.branch == some branch)).map RepoWorktree.path

/-- Environment for `create_worktree`: configuration values plus the
outcomes of the gateway calls it makes. `resolveAbs` models
`pathlib.Path.resolve()`, whose normalization depends on the host
filesystem (symlinks), as an environment-supplied function.
`remoteBranchExistsO` is the `git.remote_branch_exists` probe used by
the post-creation push wiring. -/
structure CreateEnv where
  pfx : PyStr
  pathPattern : PyStr
  repoRoot : PyStr
  defaultBase : Option PyStr
  resolveAbs : PyStr → PyStr
  addOk : Bool
  addErr : PyStr
  remoteBranchExistsO : Bool

/-- Basename of the repository root (`self.repo_root.name`). -/
def repoName (env : CreateEnv) : PyStr :=
  (splitOnChar '/' env.repoRoot).getLastD []

/-- Embedding of `Config.resolve_path_pattern` (config.py lines 170-194):
substitute `{repo}`, `{name}`, `{branch}` into the configured pattern,
join under the repository root, and normalize. -/
def resolve_path_pattern (env : CreateEnv) (name branch : PyStr) : PyStr :=
  let resolved := replaceAll
    (replaceAll (replaceAll env.pathPattern (str "{repo}") (repoName env))
      (str "{name}") name)
    (str "{branch}") branch
  env.resolveAbs (env.repoRoot ++ '/' :: resolved)

/-- Typed stand-ins for the `git.GitError` messages `create_worktree`
raises (worktree.py lines 190-203 and 217-218): the already-exists
refusal, the path-exists refusal, and a wrapped `git worktree add`
failure. -/
inductive GitErr where
  | alreadyExists (name : PyStr) (path : PyStr)
  | pathExists (path : PyStr)
  | addFailed (msg : PyStr)
deriving DecidableEq, Repr

/-- Mutating gateway calls made by `create_worktree`, in order:
`git worktree add`, the detached-name `git config` store, and the two
push-wiring variants. -/
inductive CreateEvent where
  | addWorktree (path : PyStr) (branch : PyStr) (create_branch : Bool)
      (base : Option PyStr) (detached : Bool)
  | setWorktreeNameEv (name : PyStr) (path : PyStr)
  | configurePushRemote (branch : PyStr) (remote : PyStr) (remoteBranch : PyStr)
  | setUpstreamEv (branch : PyStr) (remote : PyStr) (remoteBranch : PyStr)
deriving DecidableEq, Repr

/-- Embedding of `WorktreeManager.create_worktree` (worktree.py lines
168-245). Returns the raised error or created path, the state after the
call, and the trace of mutating gateway calls. `git worktree add`
creates a new branch only when `create_branch` holds and the worktree is
not detached; the post-creation push wiring swallows its own gateway
failures, so only its attempt is recorded. -/
def create_worktree (env : CreateEnv) (s : FSState) (name : PyStr)
    (base : Option PyStr) (detached : Bool) :
    Except GitErr PyStr × FSState × List CreateEvent :=
  let branch := get_branch_name env.pfx name
  let create_branch := ! branch_exists s branch
  match worktree_exists s branch with
  | some p => (.error (.alreadyExists name p), s, [])
  | none =>
    let wt_path := resolve_path_pattern env name branch
    if s.pathsOnDisk.contains wt_path then (.error (.pathExists wt_path), s, [])
    else
      let base' : Option PyStr :=
        match base with
        | some b => some b
        | none => if detached then some (str "HEAD") else env.defaultBase
      let ev0 := CreateEvent.addWorktree wt_path branch create_branch base' detached
      if env.addOk then
        let s' : FSState :=
          { branches := if create_branch && ! detached then branch :: s.branches
              else s.branches,
            worktrees := s.worktrees ++ [⟨wt_path, if detached then none else some branch⟩],
            pathsOnDisk := wt_path :: s.pathsOnDisk }
        let wiring : List CreateEvent :=
          if detached then [CreateEvent.setWorktreeNameEv name wt_path]
          else if create_branch then
            [CreateEvent.configurePushRemote branch (str "origin") branch]
          else if env.remoteBranchExistsO then
            [CreateEvent.setUpstreamEv branch (str "origin") branch]
          else [CreateEvent.configurePushRemote branch (str "origin") branch]
        (.ok wt_path, s', ev0 :: wiring)
      else (.error (.addFailed env.addErr), s, [ev0])

/-- C4: create is not idempotent — after a successful (branch-bound)
`create_worktree name`, a second `create_worktree name` with any base
and detached flag fails with the already-exists error naming the first
call's path, and the failing call performs no mutation: the state the
first call produced is returned unchanged and the event trace is
empty. -/
theorem create_second_fails (env : CreateEnv) (s : FSState) (name : PyStr)
    (base base₂ : Option PyStr) (detached₂ : Bool) (p : PyStr) (s' : FSState)
    (evs : List CreateEvent)
    (h : create_worktree env s name base false = (.ok p, s', evs)) :
    create_worktree env s' name base₂ detached₂ =
      (.error (.alreadyExists name p), s', []) := by
  cases e0 : worktree_exists s (get_branch_name env.pfx name) with
  | some q => simp [create_worktree, e0] at h
  | none =>
    by_cases e1 : resolve_path_pattern env name (get_branch_name env.pfx name) ∈ s.pathsOnDisk
    · simp [create_worktree, e0, e1] at h
    · by_cases e2 : env.addOk = true
      · simp [create_worktree, e0, e1, e2] at h
        obtain ⟨hp, hs, -⟩ := h
        have hfn : s.worktrees.find?
            (fun w => w.branch == some (get_branch_name env.pfx name)) = none := by
          simpa [worktree_exists] using e0
        have e0' : worktree_exists s' (get_branch_name env.pfx name) = some p := by
          rw [← hs]
          simp [worktree_exists, List.find?_append, hfn, List.find?, ← hp]
        simp [create_worktree, e0']
      · simp [create_worktree, e0, e1, e2] at h

deriving instance DecidableEq for Except

/-- Concrete creation environment for the C4/C6 witnesses: default
config values, a repository at `/r/repo`, `git worktree add` succeeding,
and path normalization taken as the identity. -/
def envA : CreateEnv :=
  CreateEnv.mk (str "feature") (str "../{repo}-{name}") (str "/r/repo")
    (some (str "origin/main")) (fun p => p) true [] false

/-- Concrete starting state for the C4/C6 witnesses: one main worktree
on branch `main`. -/
def stA : FSState :=
  FSState.mk [str "main"] [RepoWorktree.mk (str "/r/repo") (some (str "main"))]
    [str "/r/repo"]

/-- State produced by the first `create_worktree "foo"` call of the C4
witness. -/
def stA' : FSState :=
  FSState.mk [str "feature/foo", str "main"]
    [RepoWorktree.mk (str "/r/repo") (some (str "main")),
     RepoWorktree.mk (str "/r/repo/../repo-foo") (some (str "feature/foo"))]
    [str "/r/repo/../repo-foo", str "/r/repo"]

/-- Witness for C4: a concrete first create succeeds, and the second
create of the same name fails with the already-exists error, leaving the
first call's state untouched and recording no mutation. -/
theorem create_second_fails_witness :
    create_worktree envA stA (str "foo") none false =
      (.ok (str "/r/repo/../repo-foo"), stA',
       [CreateEvent.addWorktree (str "/r/repo/../repo-foo") (str "feature/foo") true
          (some (str "origin/main")) false,
        CreateEvent.configurePushRemote (str "feature/foo") (str "origin")
          (str "feature/foo")])
    ∧ create_worktree envA stA' (str "foo") (some (str "HEAD")) true =
      (.error (.alreadyExists (str "foo") (str "/r/repo/../repo-foo")), stA', []) :=
  ⟨by decide,
   create_second_fails envA stA (str "foo") none (some (str "HEAD")) true
     (str "/r/repo/../repo-foo") stA'
     [CreateEvent.addWorktree (str "/r/repo/../repo-foo") (str "feature/foo") true
        (some (str "origin/main")) false,
      CreateEvent.configurePushRemote (str "feature/foo") (str "origin")
        (str "feature/foo")]
     (by decide)⟩

/-- C6: when the creation guards pass, the `git worktree add` call —
always the first mutating gateway call — uses the explicit `base`
argument when one is given; with no base it uses `"HEAD"` for a
detached worktree (never the configured default base) and the
configured `default_base` otherwise. -/
theorem create_base_resolution (env : CreateEnv) (s : FSState) (name : PyStr)
    (detached : Bool)
    (e0 : worktree_exists s (get_branch_name env.pfx name) = none)
    (e1 : resolve_path_pattern env name (get_branch_name env.pfx name) ∉ s.pathsOnDisk) :
    ((create_worktree env s name none detached).2.2.head? =
      some (CreateEvent.addWorktree
        (resolve_path_pattern env name (get_branch_name env.pfx name))
        (get_branch_name env.pfx name)
        (! branch_exists s (get_branch_name env.pfx name))
        (if detached then some (str "HEAD") else env.defaultBase)
        detached))
    ∧ ∀ b : PyStr, (create_worktree env s name (some b) detached).2.2.head? =
      some (CreateEvent.addWorktree
        (resolve_path_pattern env name (get_branch_name env.pfx name))
        (get_branch_name env.pfx name)
        (! branch_exists s (get_branch_name env.pfx name))
        (some b)
        detached) := by
  constructor
  · by_cases e2 : env.addOk = true <;> simp [create_worktree, e0, e1, e2]
  · intro b
    by_cases e2 : env.addOk = true <;> simp [create_worktree, e0, e1, e2]

/-- Witness for C6: creating a detached worktree with no explicit base
passes `"HEAD"` as the base of the `git worktree add` call. -/
theorem create_base_resolution_witness :
    worktree_exists stA (get_branch_name envA.pfx (str "foo")) = none
    ∧ resolve_path_pattern envA (str "foo") (get_branch_name envA.pfx (str "foo"))
        ∉ stA.pathsOnDisk
    ∧ (create_worktree envA stA (str "foo") none true).2.2.head? =
        some (CreateEvent.addWorktree
          (resolve_path_pattern envA (str "foo") (get_branch_name envA.pfx (str "foo")))
          (get_branch_name envA.pfx (str "foo"))
          (! branch_exists stA (get_branch_name envA.pfx (str "foo")))
          (some (str "HEAD")) true) :=
  ⟨by decide, by decide, by
    have h := (create_base_resolution envA stA (str "foo") true (by decide) (by decide)).1
    simpa using h⟩

/-- Mutating gateway calls made by `delete_worktree` and the clean-up
batch, in order. -/
inductive WtEvent where
  | removeWorktree (path : PyStr) (force : Bool)
  | deleteBranch (branch : PyStr) (force : Bool)
  | pruneWorktrees
deriving DecidableEq, Repr

/-- Outcome of a `delete_worktree` call: a raised `git.GitError`, a
`prompts.error(..., EXIT_ERROR)` process exit, the `False` return after
a declined confirmation, or the `True` return after deletion. -/
inductive DeleteOutcome where
  | raised (msg : PyStr)
  | exited (code : Nat) (msg : PyStr)
  | cancelled
  | deleted
deriving DecidableEq, Repr

/-- Environment for `delete_worktree`: the enriched listing, the current
worktree (`get_current_worktree`, an os.getcwd-based lookup), and the
outcomes of its gateway calls, keyed by the argument each call gets.
`aheadBehind` is `none` when `get_ahead_behind` raises (the comparison
is then swallowed). -/
structure DeleteEnv where
  worktrees : List Worktree
  current : Option Worktree
  hasUncommitted : PyStr → Bool
  statusShort : PyStr → PyStr
  upstreamOf : PyStr → Option PyStr
  aheadBehind : PyStr → PyStr → Option (Nat × Nat)
  unpushedLog : PyStr
  confirmAnswer : Bool
  removeOk : Bool
  removeErr : PyStr
  pruneOk : Bool
  pruneErr : PyStr

/-- Truthiness of `current and current["path"] == wt_path` (worktree.py
lines 272-273). -/
def pathIsCurrent (cur : Option Worktree) (p : PyStr) : Bool :=
  match cur with
  | some c => c.path == p
  | none => false

/-- Removal tail of `delete_worktree` (worktree.py lines 312-328):
`git worktree remove` (wrapping its failure), branch deletion unless
`keep_branch` (its failure only warns), then an unconditional prune. -/
def deleteTail (env : DeleteEnv) (wt : Worktree) (force keep_branch : Bool) :
    DeleteOutcome × List WtEvent :=
  let evs0 := [WtEvent.removeWorktree wt.path force]
  if ¬ env.removeOk then
    (.raised (str "Failed to remove worktree: " ++ env.removeErr), evs0)
  else
    let evs1 := evs0 ++
      (match wt.branch with
       | some b => if ¬ keep_branch then [WtEvent.deleteBranch b force] else []
       | none => [])
    let evs2 := evs1 ++ [WtEvent.pruneWorktrees]
    if ¬ env.pruneOk then (.raised env.pruneErr, evs2)
    else (.deleted, evs2)

/-- Unpushed-commit confirmation region of `delete_worktree`
(worktree.py lines 288-310), entered only without `force` on a
branch-bound worktree: with an upstream and a successful ahead/behind
lookup reporting unpushed commits, a declined prompt returns `False`;
every other path falls through to the removal tail. -/
def deleteUnpushedCheck (env : DeleteEnv) (wt : Worktree) (force keep_branch : Bool) :
    DeleteOutcome × List WtEvent :=
  match wt.branch with
  | some b =>
    (match env.upstreamOf b with
     | some u =>
       (match env.aheadBehind b u with
        | some (ahead, _) =>
          if ahead > 0 ∧ ¬ env.confirmAnswer then (.cancelled, [])
          else deleteTail env wt force keep_branch
        | none => deleteTail env wt force keep_branch)
     | none => deleteTail env wt force keep_branch)
  | none => deleteTail env wt force keep_branch

/-- Embedding of `WorktreeManager.delete_worktree` (worktree.py lines
247-328): not-found and current-worktree refusals, the forced-less
uncommitted-changes refusal through `prompts.error(..., EXIT_ERROR)`
(which exits the process with the short-status text in the message),
the unpushed-commit confirmation, then the removal tail. -/
def delete_worktree (env : DeleteEnv) (pfx : PyStr) (name : PyStr)
    (force keep_branch : Bool) : DeleteOutcome × List WtEvent :=
  match find_worktree_by_name env.worktrees pfx name with
  | none => (.raised (str "Worktree '" ++ name ++ str "' not found"), [])
  | some wt =>
    if pathIsCurrent env.current wt.path then
      (.raised (str "Cannot delete current worktree.\nSwitch to a different worktree first: wt switch ^"), [])
    else if ¬ force ∧ env.hasUncommitted wt.path then
      (.exited 1 (str "Worktree '" ++ name ++ str "' has uncommitted changes:\n"
        ++ env.statusShort wt.path ++ str "\nuse --force to delete anyway"), [])
    else if ¬ force then deleteUnpushedCheck env wt force keep_branch
    else deleteTail env wt force keep_branch

/-- C5: without `force`, deleting an existing non-current worktree that
has uncommitted changes exits with an error message carrying the
short-status text and performs no mutation; and when the worktree is
clean but has unpushed commits and the user declines the confirmation,
the call returns `False` (cancelled) — not an error — again mutating
nothing. -/
theorem delete_refusals (env : DeleteEnv) (pfx name : PyStr) (wt : Worktree)
    (keep_branch : Bool) (b u : PyStr) (ahead behind : Nat)
    (hfind : find_worktree_by_name env.worktrees pfx name = some wt)
    (hcur : pathIsCurrent env.current wt.path = false) :
    (env.hasUncommitted wt.path = true →
      delete_worktree env pfx name false keep_branch =
        (.exited 1 (str "Worktree '" ++ name ++ str "' has uncommitted changes:\n"
          ++ env.statusShort wt.path ++ str "\nuse --force to delete anyway"), []))
    ∧ (env.hasUncommitted wt.path = false → wt.branch = some b →
      env.upstreamOf b = some u → env.aheadBehind b u = some (ahead, behind) →
      ahead > 0 → env.confirmAnswer = false →
      delete_worktree env pfx name false keep_branch = (.cancelled, [])) := by
  constructor
  · intro hunc
    simp [delete_worktree, hfind, hcur, hunc]
  · intro hunc hb hup hab hahead hconf
    simp [delete_worktree, hfind, hcur, hunc, deleteUnpushedCheck, hb, hup, hab, hahead, hconf]

/-- Main worktree used by the C5 witness. -/
def wtMain : Worktree := Worktree.mk (str "/r") (some (str "main")) (str "c0") (str "main")

/-- Target worktree used by the C5 witness. -/
def wtFoo : Worktree :=
  Worktree.mk (str "/r-foo") (some (str "feature/foo")) (str "c1") (str "foo")

/-- Delete environment of the C5 witness's first scenario: the target
worktree has uncommitted changes. -/
def envD1 : DeleteEnv :=
  DeleteEnv.mk [wtMain, wtFoo] (some wtMain)
    (fun p => p == str "/r-foo") (fun _ => str " M a.txt\n")
    (fun _ => none) (fun _ _ => none) [] false true [] true []

/-- Delete environment of the C5 witness's second scenario: the target
is clean but two commits ahead of its upstream, and the confirmation
prompt is declined. -/
def envD2 : DeleteEnv :=
  DeleteEnv.mk [wtMain, wtFoo] (some wtMain)
    (fun _ => false) (fun _ => [])
    (fun _ => some (str "origin/feature/foo")) (fun _ _ => some (2, 0))
    (str "abc123 wip") false true [] true []

/-- Witness for C5: the uncommitted-changes refusal exits with the
status text and no mutation, and the declined unpushed-commit prompt
returns cancelled with no mutation. -/
theorem delete_refusals_witness :
    find_worktree_by_name [wtMain, wtFoo] (str "feature") (str "foo") = some wtFoo
    ∧ pathIsCurrent (some wtMain) wtFoo.path = false
    ∧ envD1.hasUncommitted wtFoo.path = true
    ∧ delete_worktree envD1 (str "feature") (str "foo") false false =
        (.exited 1 (str "Worktree '" ++ str "foo" ++ str "' has uncommitted changes:\n"
          ++ envD1.statusShort wtFoo.path ++ str "\nuse --force to delete anyway"), [])
    ∧ envD2.hasUncommitted wtFoo.path = false
    ∧ envD2.confirmAnswer = false
    ∧ delete_worktree envD2 (str "feature") (str "foo") false false = (.cancelled, []) :=
  ⟨by decide, by decide, rfl,
   (delete_refusals envD1 (str "feature") (str "foo") wtFoo false [] [] 0 0
      (by decide) (by decide)).1 rfl,
   rfl, rfl,
   (delete_refusals envD2 (str "feature") (str "foo") wtFoo false
      (str "feature/foo") (str "origin/feature/foo") 2 0
      (by decide) (by decide)).2 rfl rfl rfl rfl (by decide) rfl⟩

/-- Remote component of an upstream ref: `upstream.split('/')[0]`
(worktree.py line 413). -/
def upstreamRemote (u : PyStr) : PyStr := (splitOnChar '/' u).headD []

/-- Remote-branch component of an upstream ref:
`'/'.join(upstream.split('/')[1:])` (worktree.py line 414). -/
def upstreamRemoteBranch (u : PyStr) : PyStr :=
  List.intercalate ['/'] ((splitOnChar '/' u).drop 1)

/-- Environment for `clean_merged_worktrees`: the enriched listing, the
detected default branch, and the outcomes of the gateway probes.
`isAncestorO branch target` is the `git merge-base --is-ancestor` check
(`none` = the call raised and the except-pass clause swallowed it). The
removal loop's `delete_worktree(name, force=True)` calls run against
`deleteEnv`; each of those calls re-lists worktrees through the gateway,
which the model represents by that one environment. -/
structure CleanEnv where
  worktrees : List Worktree
  defaultBranch : PyStr
  isAncestorO : PyStr → PyStr → Option Bool
  upstreamOf : PyStr → Option PyStr
  remoteBranchExistsO : PyStr → PyStr → Bool
  confirmAnswer : Bool
  pfx : PyStr
  deleteEnv : DeleteEnv

/-- Candidate test of the `clean_merged_worktrees` scan loop
(worktree.py lines 387-417) for one worktree: skip unbound worktrees,
the default branch, and worktrees whose derived name equals the raw
branch (no prefix stripped); then flag merged branches first and
otherwise branches whose specific upstream remote branch is gone. -/
def clean_candidate (env : CleanEnv) (wt : Worktree) : Option (PyStr × PyStr) :=
  match wt.branch with
  | none => none
  | some branch =>
    if branch == env.defaultBranch then none
    else if wt.name == branch then none
    else if env.isAncestorO branch (str "origin/" ++ env.defaultBranch) = some true then
      some (wt.name, str "merged into " ++ env.defaultBranch)
    else
      match env.upstreamOf branch with
      | some u =>
        if ¬ env.remoteBranchExistsO (upstreamRemoteBranch u) (upstreamRemote u) then
          some (wt.name, str "remote branch deleted")
        else none
      | none => none

/-- Candidate list `to_remove` of `clean_merged_worktrees`. -/
def clean_candidates (env : CleanEnv) : List (PyStr × PyStr) :=
  env.worktrees.filterMap (clean_candidate env)

/-- Embedding of `WorktreeManager.clean_merged_worktrees` (worktree.py
lines 372-447): empty candidate set returns immediately; dry run returns
the candidate names with no removal; otherwise a declined batch
confirmation (absent `force`) returns empty; otherwise each candidate is
deleted with `force=True, keep_branch=False`, failures only warned. -/
def clean_merged_worktrees (env : CleanEnv) (dry_run force : Bool) :
    List PyStr × List WtEvent :=
  let to_remove := clean_candidates env
  if to_remove = [] then ([], [])
  else if dry_run then (to_remove.map Prod.fst, [])
  else if ¬ force ∧ ¬ env.confirmAnswer then ([], [])
  else
    to_remove.foldl (fun acc nr =>
      let dr := delete_worktree env.deleteEnv env.pfx nr.1 true false
      (match dr.1 with
       | .deleted => acc.1 ++ [nr.1]
       | _ => acc.1, acc.2 ++ dr.2)) ([], [])

/-- Claim-side candidate predicate, following the specification's words:
a listed worktree with a bound branch, not the detected default branch,
whose derived name differs from its raw branch, that is either merged
into `origin/<defaultBranch>` or has an upstream whose specific remote
branch no longer exists. -/
def spec_is_candidate (env : CleanEnv) (wt : Worktree) : Bool :=
  match wt.branch with
  | none => false
  | some b =>
    ! (b == env.defaultBranch) && ! (wt.name == b) &&
      ((env.isAncestorO b (str "origin/" ++ env.defaultBranch) == some true) ||
       (match env.upstreamOf b with
        | some u => ! env.remoteBranchExistsO (upstreamRemoteBranch u) (upstreamRemote u)
        | none => false))

/-- Claim-side candidate name list. -/
def spec_clean_candidates (env : CleanEnv) : List PyStr :=
  (env.worktrees.filter (spec_is_candidate env)).map Worktree.name

/-- Helper: the code's per-worktree candidate computation produces a
name exactly when the claim-side predicate holds, and then that
worktree's name. -/
theorem clean_candidate_spec (env : CleanEnv) (wt : Worktree) :
    (clean_candidate env wt).map Prod.fst =
      if spec_is_candidate env wt then some wt.name else none := by
  unfold clean_candidate spec_is_candidate
  cases hb : wt.branch with
  | none => simp
  | some b =>
    by_cases h1 : b == env.defaultBranch
    · simp [h1]
    · by_cases h2 : wt.name == b
      · simp [h1, h2]
      · by_cases h3 : env.isAncestorO b (str "origin/" ++ env.defaultBranch) = some true
        · simp [h1, h2, h3]
        · cases hu : env.upstreamOf b with
          | none => simp [h1, h2, h3, hu]
          | some u =>
            by_cases h4 : env.remoteBranchExistsO (upstreamRemoteBranch u)
                (upstreamRemote u) = true
            · simp [h1, h2, h3, hu, h4]
            · simp [h1, h2, h3, hu, h4]

/-- Helper: the candidate names computed by the code equal the
claim-side candidate list. -/
theorem clean_candidates_names (env : CleanEnv) :
    (clean_candidates env).map Prod.fst = spec_clean_candidates env := by
  unfold clean_candidates spec_clean_candidates
  induction env.worktrees with
  | nil => rfl
  | cons wt rest ih =>
    rw [List.filterMap_cons, List.filter_cons]
    have hpt := clean_candidate_spec env wt
    cases hc : clean_candidate env wt with
    | none =>
      rw [hc] at hpt
      have hsp : spec_is_candidate env wt = false := by
        by_cases h : spec_is_candidate env wt
        · rw [if_pos h] at hpt; simp at hpt
        · simpa using h
      simp [hsp, ih]
    | some pr =>
      rw [hc] at hpt
      have hsp : spec_is_candidate env wt = true := by
        by_cases h : spec_is_candidate env wt
        · exact h
        · rw [if_neg h] at hpt; simp at hpt
      rw [if_pos hsp] at hpt
      simp at hpt
      simp [hsp, ih, hpt]

/-- C9: a dry-run clean returns exactly the claim's candidate name list
— bound-branch worktrees, excluding the default branch and worktrees
whose derived name equals the raw branch, that are merged into
`origin/<defaultBranch>` or whose upstream remote branch is gone — and
performs zero deletions; its result does not depend on `force`, so two
dry runs over the same gateway state return the same list. -/
theorem clean_merged_dry_run (env : CleanEnv) (force force' : Bool) :
    clean_merged_worktrees env true force = (spec_clean_candidates env, [])
    ∧ (clean_merged_worktrees env true force).1
        = (clean_merged_worktrees env true force').1 := by
  have hn := clean_candidates_names env
  have h1 : ∀ f : Bool, clean_merged_worktrees env true f = (spec_clean_candidates env, []) := by
    intro f
    unfold clean_merged_worktrees
    by_cases h : clean_candidates env = []
    · rw [← hn, h]; simp [h]
    · simp [h, hn]
  exact ⟨h1 force, by rw [h1 force, h1 force']⟩

/-- Batch half of `sync_worktrees` (worktree.py lines 596-633): an empty
resolved target list raises `GitError("No worktrees to sync")`;
otherwise each targeted worktree is synced independently, successes
collected as `(name, message)` and failures as
`(name, error, stashed)`. -/
def syncBatchRun (envOf : Worktree → SyncEnv) (default_base : Option PyStr)
    (rebase : Bool) (ws : List Worktree) :
    Except PyStr (List (PyStr × PyStr) × List (PyStr × Option PyStr × Bool)) :=
  if ws = [] then .error (str "No worktrees to sync")
  else
    .ok (ws.foldl (fun acc wt =>
      let r := (sync_worktree wt (envOf wt) default_base rebase).1
      if r.success then (acc.1 ++ [(wt.name, r.message)], acc.2)
      else (acc.1, acc.2 ++ [(wt.name, r.error, r.stashed)])) ([], []))

/-- Embedding of `WorktreeManager.sync_worktrees` (worktree.py lines
564-633): with no explicit names, the current worktree is the sole
target (raising `GitError("Cannot determine current worktree")` when
there is none); with explicit names, each name is resolved through
`find_worktree_by_name` and unresolved names are warned and skipped.
`envOf` supplies each targeted worktree's per-run gateway outcomes. -/
def sync_worktrees (wts : List Worktree) (current : Option Worktree) (pfx : PyStr)
    (envOf : Worktree → SyncEnv) (default_base : Option PyStr)
    (names : Option (List PyStr)) (rebase : Bool) :
    Except PyStr (List (PyStr × PyStr) × List (PyStr × Option PyStr × Bool)) :=
  match names with
  | none =>
    match current with
    | none => .error (str "Cannot determine current worktree")
    | some c => syncBatchRun envOf default_base rebase [c]
  | some ns =>
    syncBatchRun envOf default_base rebase
      (ns.filterMap (fun n => find_worktree_by_name wts pfx n))

/-- All-failure sync environment used by the C10 counterexample and
witness; its values are never consulted on the error paths at issue. -/
def envNull : SyncEnv :=
  SyncEnv.mk none false false false [] none false [] none false

/-- Counterexample for C10 as stated: with no names given and no
current worktree determinable, `sync_worktrees` raises
`GitError("Cannot determine current worktree")` — not the claimed
"No worktrees to sync". -/
theorem sync_worktrees_error_msg_counterexample :
    sync_worktrees [] none (str "feature") (fun _ => envNull) none none false
      = .error (str "Cannot determine current worktree")
    ∧ sync_worktrees [] none (str "feature") (fun _ => envNull) none none false
      ≠ .error (str "No worktrees to sync") :=
  ⟨rfl, fun h => absurd (Except.error.inj h) (by decide)⟩

/-- C10 (amended): with an explicit non-empty name list in which no
name resolves to a worktree, `sync_worktrees` raises
`GitError("No worktrees to sync")` rather than returning empty
succeeded/failed lists; with no names given and no current worktree, it
raises `GitError("Cannot determine current worktree")`. -/
theorem sync_worktrees_no_targets (wts : List Worktree) (current : Option Worktree)
    (pfx : PyStr) (envOf : Worktree → SyncEnv) (default_base : Option PyStr)
    (ns : List PyStr) (rebase : Bool) :
    (ns ≠ [] → (∀ n ∈ ns, find_worktree_by_name wts pfx n = none) →
      sync_worktrees wts current pfx envOf default_base (some ns) rebase =
        .error (str "No worktrees to sync"))
    ∧ sync_worktrees wts none pfx envOf default_base none rebase =
        .error (str "Cannot determine current worktree") := by
  constructor
  · intro _hne hall
    have h0 : ns.filterMap (fun n => find_worktree_by_name wts pfx n) = [] :=
      List.filterMap_eq_nil_iff.mpr hall
    simp [sync_worktrees, syncBatchRun, h0]
  · simp [sync_worktrees]

/-- Witness for C10: a single unresolvable name yields the
no-worktrees-to-sync error. -/
theorem sync_worktrees_no_targets_witness :
    ([str "nope"] ≠ ([] : List PyStr))
    ∧ (∀ n ∈ [str "nope"], find_worktree_by_name [wtMain] (str "feature") n = none)
    ∧ sync_worktrees [wtMain] (some wtMain) (str "feature") (fun _ => envNull) none
        (some [str "nope"]) false = .error (str "No worktrees to sync") :=
  ⟨by decide, by decide,
   (sync_worktrees_no_targets [wtMain] (some wtMain) (str "feature") (fun _ => envNull)
      none [str "nope"] false).1 (by decide) (by decide)⟩
